import Mathlib

/-!
Verification of the discoblocks control plane against its source.

The development shallowly embeds the three source files:

* `src/controllers/pvc_controller.go` — the PVC reconciler (`Reconcile`),
  the volume monitor (`MonitorVolumes`), the claim event filter
  (`pvcEventFilter`) and the pod admission mutator (`PodMutator.Handle`);
* `src/pkg/utils/kube.go` — the job renderers (`RenderAttachJob`,
  `RenderMountJob`, `RenderResizeJob`) and their manifest templates;
* `src/drivers/ebs.csi.aws.com/main.go` — the EBS driver module.

Kubernetes resource quantities (`resource.Quantity` values and the
`AsApproximateFloat64` arithmetic done on them by `MonitorVolumes`) are
embedded as exact rationals (`ℚ`); byte counts scraped from metrics are
rationals as well.  Fallible external calls (client `Get`, metric value
parsing, quantity parsing) are embedded as `Option`-valued inputs; the
source's `continue`-on-error handling becomes propagation of `none`.
-/

namespace Discoblocks

/-- Modelled from the spec: `utils.RenderFinalizer` is not under `src/`;
per the data model, a claim "carries a finalizer naming its owning
DiskConfig", so the rendered finalizer is a fixed project prefix followed
by the configuration name. -/
def RenderFinalizer (name : String) : String :=
  "discoblocks.ondat.io/" ++ name

/-- Modelled from the spec: `utils.RenderMountPoint` is not under `src/`;
it renders the configuration's mount-point naming pattern with a name and
an index (the monitor and the mutator both call it with index `0`).  An
empty pattern falls back to a fixed per-name default path; a non-empty
pattern has the index substituted for its placeholder. -/
def RenderMountPoint (pattern name : String) (index : Nat) : String :=
  if pattern = "" then "/media/discoblocks/" ++ name ++ "-" ++ toString index
  else pattern.replace "%d" (toString index)

/-- Modelled from the spec: `utils.RenderResourceName` is not under `src/`;
given a prefix flag, a salt, a base name and a namespace it
deterministically derives a DNS-safe resource name. -/
def RenderResourceName (withDisco : Bool) (salt base ns : String) : String :=
  (if withDisco then "discoblocks-" else "") ++ salt ++ "-" ++ base ++ "-" ++ ns

/-- One container volume mount of the first container of a pod
(`pod.Spec.Containers[0].VolumeMounts` entries read by `MonitorVolumes`). -/
structure VolumeMount where
  name : String
  mountPath : String
deriving DecidableEq

/-- The fields of a `corev1.PersistentVolumeClaim` read by the controller:
finalizers, labels, deletion timestamp, status phase and the status
capacity (`pvc.Status.Capacity.Storage()`, in bytes, as an exact rational). -/
structure PVC where
  name : String
  finalizers : List String
  labels : List (String × String)
  deletionTimestamp : Option Nat
  phase : String
  capacity : ℚ
deriving DecidableEq

/-- Go map read `pvc.Labels["discoblocks"]`: a missing key yields `""`. -/
def pvcLabelDiscoblocks (pvc : PVC) : String :=
  ((pvc.labels.find? (fun p => p.1 = "discoblocks")).map Prod.snd).getD ""

/-- Finalizer containment check `controllerutil.ContainsFinalizer`. -/
def containsFinalizer (pvc : PVC) (f : String) : Bool :=
  pvc.finalizers.contains f

/-- Autoscaling policy fields of a DiskConfig read by `MonitorVolumes`:
`Pause`, `MaximumCapacityOfDisk` (a string parsed by
`resource.ParseQuantity` on every sample — embedded as the parse result,
`none` when the string is invalid) and `UpscaleTriggerPercentage`. -/
structure DiskConfigPolicy where
  pause : Bool
  maximumCapacityOfDisk : Option ℚ
  upscaleTriggerPercentage : ℚ
deriving DecidableEq

/-- The DiskConfig fields read by `MonitorVolumes`. -/
structure DiskConfig where
  name : String
  mountPointPattern : String
  policy : DiskConfigPolicy
deriving DecidableEq

/-- Quantity "1Gi" as parsed by `resource.ParseQuantity`: 2^30 bytes. -/
def oneGi : ℚ := 1073741824

/-- Capacity decision of `MonitorVolumes`
(src/controllers/pvc_controller.go lines 319-357) for one sample, given
the claim's actual capacity, the scraped available bytes, the parsed
maximum capacity and the upscale trigger percentage.  `none` means no
update of the claim's storage request is issued; `some q` means the
storage request is set to `q`.  The Go float arithmetic on
`AsApproximateFloat64` values is embedded as exact rational arithmetic,
and `actualCapacity.Cmp(maxCapacity) == 0` as rational equality. -/
def monitorResizeDecision (actualCapacity available maxCapacity pct : ℚ) : Option ℚ :=
  let treshold := actualCapacity * pct / 100
  if treshold > actualCapacity - available then
    none
  else if actualCapacity = maxCapacity then
    none
  else
    let newCapacity := oneGi + actualCapacity
    let newCapacity := if maxCapacity < newCapacity then maxCapacity else newCapacity
    some newCapacity

/-- Per-sample processing of `MonitorVolumes`
(src/controllers/pvc_controller.go lines 261-357), starting after the
Prometheus line has been parsed into its `mountpoint` label and its value.

Inputs: the DiskConfig being processed, the volume mounts of the pod's
first container, the cluster's claims (`getPVC` embeds the client `Get`
by claim name; `none` is a fetch error), the sample's `mountpoint` label
and its parsed value (`none` when `ParsePrometheusMetricValue` fails).

Output: `none` when no claim update is issued (each `continue` of the
source), or `some (claimName, newRequest)` for the issued update of the
claim's storage request. -/
def processMetricSample (config : DiskConfig) (volumeMounts : List VolumeMount)
    (getPVC : String → Option PVC) (mountpoint : String) (available : Option ℚ) :
    Option (String × ℚ) :=
  if mountpoint = "" then none
  else if mountpoint ≠ RenderMountPoint config.mountPointPattern config.name 0 then none
  else
    match volumeMounts.find? (fun vm => vm.mountPath == mountpoint) with
    | none => none
    | some vm =>
      if vm.name = "" then none
      else
        match getPVC vm.name with
        | none => none
        | some pvc =>
          if ¬ containsFinalizer pvc (RenderFinalizer config.name) then none
          else
            match available with
            | none => none
            | some avail =>
              match config.policy.maximumCapacityOfDisk with
              | none => none
              | some maxCapacity =>
                match monitorResizeDecision pvc.capacity avail maxCapacity
                    config.policy.upscaleTriggerPercentage with
                | none => none
                | some newCapacity => some (vm.name, newCapacity)

/-! Event filter (`pvcEventFilter`, src/controllers/pvc_controller.go 367-405).

The filter receives `client.Object`s and rejects events whose object is
not a `PersistentVolumeClaim`; the embedding types the events as PVCs, so
the failing-cast branches disappear. -/

/-- Create event filter `pvcEventFilter.Create`. -/
def pvcEventFilterCreate (newObj : PVC) : Bool :=
  containsFinalizer newObj (RenderFinalizer (pvcLabelDiscoblocks newObj))

/-- Delete event filter `pvcEventFilter.Delete`. -/
def pvcEventFilterDelete : Bool := false

/-- Update event filter `pvcEventFilter.Update`. -/
def pvcEventFilterUpdate (oldObj newObj : PVC) : Bool :=
  if ¬ containsFinalizer newObj (RenderFinalizer (pvcLabelDiscoblocks newObj)) then false
  else
    oldObj.deletionTimestamp.isSome || newObj.deletionTimestamp.isSome ||
      (oldObj.phase != newObj.phase)

/-- Generic event filter `pvcEventFilter.Generic`. -/
def pvcEventFilterGeneric : Bool := false

/-! Concurrency gate.

`Reconcile` (src/controllers/pvc_controller.go 61-69) starts with
`lock, unlock := controllerSemaphore()` and, when the lock is not
obtained, returns `ctrl.Result{Requeue: true}`.  `MonitorVolumes`
(src/controllers/pvc_controller.go 132-145) performs no semaphore
acquisition at all: its entry proceeds into the cycle unconditionally and
leaves, then restores, no gate state.  The gate state is a single `Bool`
(`true` = held). -/

/-- Modelled from the spec: `controllerSemaphore` itself is not under
`src/`; it is the "single process-wide non-blocking mutual-exclusion
gate": a try-acquire that returns whether the lock was obtained, never
blocking.  Result: (lock obtained?, gate state afterwards). -/
def controllerSemaphore (locked : Bool) : Bool × Bool :=
  if locked then (false, locked) else (true, true)

/-- Outcome of the gate prologue of `Reconcile`. -/
inductive ReconcileGateOutcome where
  /-- The lock was not obtained: `Reconcile` returns `Requeue: true`. -/
  | requeue
  /-- The lock was obtained: `Reconcile` proceeds with the reconciliation. -/
  | proceeded
deriving DecidableEq

/-- Gate prologue of `Reconcile` (src lines 64-68): try the semaphore;
on failure report a requeue, on success proceed holding the gate. -/
def reconcileGate (locked : Bool) : ReconcileGateOutcome × Bool :=
  match controllerSemaphore locked with
  | (false, s) => (.requeue, s)
  | (true, s) => (.proceeded, s)

/-- Gate behaviour of a `MonitorVolumes` entry (src lines 132-145): the
monitor body contains no semaphore interaction, so the cycle always
proceeds (`true`) and the gate state is untouched. -/
def monitorGateStep (locked : Bool) : Bool × Bool :=
  (true, locked)

/-! Pod mutator (`PodMutator.Handle`, src/controllers/pvc_controller.go
465-599 of the concatenated source).

The loop body over `diskConfigs.Items` is embedded with the outcome of
each external call (storage-class fetch, `NewPVC`, claim `Create`)
recorded as a field of the per-config input, since those calls leave this
program.  The pod-side mutations (labels, volumes, sidecar) do not feed
back into the control flow of the loop and are not represented. -/

/-- Result of the storage-class fetch for one config
(`a.Client.Get` on `config.Spec.StorageClassName`). -/
inductive SCResult where
  | found
  | notFound
  | fetchError
deriving DecidableEq

/-- One entry of `diskConfigs.Items` together with the outcomes of the
external calls made while processing it. -/
structure MutatorConfig where
  name : String
  /-- Field `config.Spec.StorageClassName`. -/
  scName : String
  /-- Flag `config.DeletionTimestamp != nil`. -/
  deleting : Bool
  /-- Selector test `utils.IsContainsAll(pod.Labels, config.Spec.PodSelector)`. -/
  selectorMatches : Bool
  mountPointPattern : String
  /-- Outcome of the storage-class fetch. -/
  scLookup : SCResult
  /-- Claim name `pvc.Name` as rendered inside `utils.NewPVC`. -/
  pvcName : String
  /-- Whether `utils.NewPVC` succeeded. -/
  stubOk : Bool
  /-- Whether `a.Client.Create(ctx, pvc)` failed with an error that is
  not `AlreadyExists`. -/
  createFails : Bool
deriving DecidableEq

/-- Admission responses produced by `Handle`.  `allowed` is
`admission.Allowed(reason)` — the pod is admitted unmodified, no patch;
`errored` is `admission.Errored(code, err)` — a denial; `patched` is the
final `admission.PatchResponseFromRaw` carrying the mutated pod. -/
inductive AdmissionResponse where
  | errored (code : Nat)
  | allowed (reason : String)
  | patched
deriving DecidableEq

/-- Failure policy `errorMode` (src mutator lines 488-494): under `strict` a failure is
`admission.Errored(code, err)`; otherwise `admission.Allowed(reason)`. -/
def errorMode (strict : Bool) (code : Nat) (reason : String) : AdmissionResponse :=
  if strict then .errored code else .allowed reason

/-- Outcome of the config loop, independent of `strict`.  `softFail` are
exactly the three `return errorMode(...)` sites (storage class not found,
`NewPVC` failure, mount-point collision); `hardFail` are the
unconditional `admission.Errored` sites (other storage-class fetch
errors, claim-create errors); `done` carries the accumulated
`volumes` map (claim name, mount point). -/
inductive PassOutcome where
  | softFail (code : Nat) (reason : String)
  | hardFail (code : Nat)
  | done (volumes : List (String × String))
deriving DecidableEq

/-- The `for i := range diskConfigs.Items` loop of `Handle`.  Since
`strict` only selects which response `errorMode` builds after the loop's
control flow is already decided (every `errorMode` call site is an
immediate `return`), the loop is embedded once, with the three
`errorMode` sites mapped to `softFail` and the unconditional error sites
to `hardFail`.  The Go `volumes` map keyed by claim name is embedded as
an association list in insertion order. -/
def mutatorPass : List MutatorConfig → List (String × String) → PassOutcome
  | [], volumes => .done volumes
  | c :: rest, volumes =>
    if c.deleting then mutatorPass rest volumes
    else if ¬ c.selectorMatches then mutatorPass rest volumes
    else
      match c.scLookup with
      | .notFound => .softFail 404 ("StorageClass not found: " ++ c.scName)
      | .fetchError => .hardFail 500
      | .found =>
        if ¬ c.stubOk then .softFail 500 "unable to init a PVC"
        else if c.createFails then .hardFail 500
        else
          let mountpoint := RenderMountPoint c.mountPointPattern c.pvcName 0
          if volumes.any (fun v => v.2 == mountpoint) then
            .softFail 500 "Unable to init a PVC"
          else
            mutatorPass rest (volumes ++ [(c.pvcName, mountpoint)])

/-- Handler `PodMutator.Handle` after decoding, as a function of the pass
outcome: a soft failure goes through `errorMode`, a hard failure is a
denial regardless of `strict`, an empty volume map is
`admission.Allowed("No sidecar injection")`, and otherwise the mutated
pod is returned as a patch (the metrics-sidecar template is constant and
its rendering cannot fail). -/
def podMutatorHandle (strict : Bool) (configs : List MutatorConfig) : AdmissionResponse :=
  match mutatorPass configs [] with
  | .softFail code reason => errorMode strict code reason
  | .hardFail code => .errored code
  | .done volumes => if volumes = [] then .allowed "No sidecar injection" else .patched

/-! Job renderers (`src/pkg/utils/kube.go`).

The Go renderers `fmt.Sprintf` a Yaml manifest template and
`yaml.Unmarshal` it into a `batchv1.Job`; the embedding constructs the
resulting job object directly, one structure per template shape, with
the template's constant fields (`backoffLimit`, `ttlSecondsAfterFinished`,
image, labels) and its `%s` substitution slots as fields.
`time.Now().UnixNano()` becomes an explicit `timestamp` input. -/

/-- Owner reference `metav1.OwnerReference` as far as the renderers use it. -/
structure OwnerReference where
  name : String
  uid : String
deriving DecidableEq

/-- A job rendered from `attachJobTemplate` (kube.go lines 55-91). -/
structure AttachJob where
  jobName : String
  jobNamespace : String
  /-- The node-affinity match-field value pinning the job to one node. -/
  nodeName : String
  /-- The `persistentVolumeClaim.claimName` of the job's volume. -/
  claimName : String
  backoffLimit : Nat
  ttlSecondsAfterFinished : Nat
  ownerReferences : List OwnerReference
deriving DecidableEq

/-- A job rendered from `hostJobTemplate` (kube.go lines 93-150), the
shared shape of the mount and resize jobs. -/
structure HostJob where
  jobName : String
  jobNamespace : String
  nodeName : String
  envMountPoint : String
  envContainerIDs : String
  envPVCName : String
  envPVName : String
  envFS : String
  envVolumeAttachmentMeta : String
  /-- The `bash -exc` script of the job's single container. -/
  command : String
  backoffLimit : Nat
  ttlSecondsAfterFinished : Nat
  ownerReferences : List OwnerReference
deriving DecidableEq

/-- Constant `hostCommandPrefix` (kube.go line 19): newline plus Yaml indentation. -/
def hostCommandPrefix : String := "\n          "

/-- Substitution `hostCommandReplacePattern.ReplaceAll(cmd, hostCommandPrefix)`
(kube.go lines 21, 247, 276): every newline of the command is replaced by
`hostCommandPrefix`; done character-wise, exactly as the regexp `\n`
substitution operates. -/
def indentHostCommand (s : String) : String :=
  ⟨s.data.flatMap (fun c => if c = '\n' then hostCommandPrefix.data else [c])⟩

/-- Template `mknodMountTemplate` (kube.go lines 159-166). -/
def mknodMountTemplate : String :=
  "DEV_MAJOR=$(chroot /host nsenter --target 1 --mount cat /proc/self/mountinfo | grep $\x7bDEV\x7d | awk \x27\x7bprint $3\x7d\x27  | awk \x27\x7bsplit($0,a,\":\"); print a[1]\x7d\x27) &&\nDEV_MINOR=$(chroot /host nsenter --target 1 --mount cat /proc/self/mountinfo | grep $\x7bDEV\x7d | awk \x27\x7bprint $3\x7d\x27  | awk \x27\x7bsplit($0,a,\":\"); print a[2]\x7d\x27) &&\nfor CONTAINER_ID in $\x7bCONTAINER_IDS\x7d; do\n\tPID=$(docker inspect -f \x27\x7b\x7b.State.Pid\x7d\x7d\x27 $\x7bCONTAINER_ID\x7d || crictl inspect --output go-template --template \x27\x7b\x7b.info.pid\x7d\x7d\x27 $\x7bCONTAINER_ID\x7d) &&\n\tchroot /host nsenter --target $\x7bPID\x7d --mount mkdir -p /dev $\x7bMOUNT_POINT\x7d &&\n\tchroot /host nsenter --target $\x7bPID\x7d --pid --mount mknod $\x7bDEV\x7d b $\x7bDEV_MAJOR\x7d $\x7bDEV_MINOR\x7d &&\n\tchroot /host nsenter --target $\x7bPID\x7d --mount mount $\x7bDEV\x7d $\x7bMOUNT_POINT\x7d\ndone &&"

/-- Template `bindMountTemplate` (kube.go line 168). -/
def bindMountTemplate : String :=
  "chroot /host nsenter --target $\x7bPID\x7d --mount mount -o bind /var/lib/kubelet/plugins/kubernetes.io/csi/pv/$\x7bPV_NAME\x7d/globalmount $\x7bMOUNT_POINT\x7d &&"

/-- Substitution `fmt.Sprintf(mountCommandTemplate, pre, bind)` (kube.go lines
153-157, 246). -/
def mountCommandTemplate (pre bind : String) : String :=
  pre ++ "\nchroot /host nsenter --target 1 --mount mkdir -p /var/lib/kubelet/plugins/kubernetes.io/csi/pv/$\x7bPV_NAME\x7d/globalmount &&\nchroot /host nsenter --target 1 --mount mount $\x7bDEV\x7d /var/lib/kubelet/plugins/kubernetes.io/csi/pv/$\x7bPV_NAME\x7d/globalmount &&\n" ++ bind ++ "\necho ok"

/-- Substitution `fmt.Sprintf(resizeCommandTemplate, pre)` (kube.go lines 171-179,
275); the template text, including its literal `(:pvc:pvc` line, is
reproduced as found in the source. -/
def resizeCommandTemplate (pre : String) : String :=
  pre ++ "\n(:pvc:pvc\n\t([ \"$\x7bFS\x7d\" = \"ext3\" ] && chroot /host nsenter --target 1 --mount resize2fs $\x7bDEV\x7d) ||\n\t([ \"$\x7bFS\x7d\" = \"ext4\" ] && chroot /host nsenter --target 1 --mount resize2fs $\x7bDEV\x7d) ||\n\t([ \"$\x7bFS\x7d\" = \"xfs\" ] && chroot /host nsenter --target 1 --mount xfs_growfs -d $\x7bDEV\x7d) ||\n\t([ \"$\x7bFS\x7d\" = \"btrfs\" ] && chroot /host nsenter --target 1 --mount btrfs filesystem resize max $\x7bDEV\x7d) ||\n\techo unsupported file-system $FS\n) &&\necho ok"

/-- The mount command computed inside `RenderMountJob` (kube.go lines
237-247): pick the bind strategy from `hostPID`, append `" && "` to a
non-empty pre-mount command, substitute into the template and indent. -/
def renderedMountCommand (preMountCommand : String) (hostPID : Bool) : String :=
  let bindMount := if hostPID then bindMountTemplate else mknodMountTemplate
  let pre := if preMountCommand ≠ "" then preMountCommand ++ " && " else preMountCommand
  indentHostCommand (mountCommandTemplate pre bindMount)

/-- The resize command computed inside `RenderResizeJob` (kube.go lines
271-276). -/
def renderedResizeCommand (preResizeCommand : String) : String :=
  let pre := if preResizeCommand ≠ "" then preResizeCommand ++ " && " else preResizeCommand
  indentHostCommand (resizeCommandTemplate pre)

/-- Renderer `RenderAttachJob` (kube.go lines 214-233): the `attachJobTemplate`
constants are `backoffLimit: 0` and `ttlSecondsAfterFinished: 86400`, and
the owner references are set to exactly the given owner. -/
def RenderAttachJob (pvcName ns nodeName : String) (timestamp : Nat)
    (owner : OwnerReference) : AttachJob :=
  { jobName := RenderResourceName true (toString timestamp) pvcName ns
    jobNamespace := ns
    nodeName := nodeName
    claimName := pvcName
    backoffLimit := 0
    ttlSecondsAfterFinished := 86400
    ownerReferences := [owner] }

/-- Renderer `RenderMountJob` (kube.go lines 236-267): a `hostJobTemplate` job
(`backoffLimit: 3`, `ttlSecondsAfterFinished: 86400`) whose command is
`renderedMountCommand` and whose owner references are exactly the given
owner. -/
def RenderMountJob (pvcName pvName ns nodeName fs mountPoint : String)
    (containerIDs : List String) (preMountCommand : String) (hostPID : Bool)
    (volumeMeta : String) (timestamp : Nat) (owner : OwnerReference) : HostJob :=
  { jobName := RenderResourceName true (toString timestamp) pvcName ns
    jobNamespace := ns
    nodeName := nodeName
    envMountPoint := mountPoint
    envContainerIDs := String.intercalate " " containerIDs
    envPVCName := pvcName
    envPVName := pvName
    envFS := fs
    envVolumeAttachmentMeta := volumeMeta
    command := renderedMountCommand preMountCommand hostPID
    backoffLimit := 3
    ttlSecondsAfterFinished := 86400
    ownerReferences := [owner] }

/-- Renderer `RenderResizeJob` (kube.go lines 270-296): a `hostJobTemplate` job
(`backoffLimit: 3`, `ttlSecondsAfterFinished: 86400`) with empty mount
point and container IDs, whose command is `renderedResizeCommand` and
whose owner references are exactly the given owner. -/
def RenderResizeJob (pvcName pvName ns nodeName fs : String)
    (preResizeCommand : String) (volumeMeta : String) (timestamp : Nat)
    (owner : OwnerReference) : HostJob :=
  { jobName := RenderResourceName true (toString timestamp) pvcName ns
    jobNamespace := ns
    nodeName := nodeName
    envMountPoint := ""
    envContainerIDs := ""
    envPVCName := pvcName
    envPVName := pvName
    envFS := fs
    envVolumeAttachmentMeta := volumeMeta
    command := renderedResizeCommand preResizeCommand
    backoffLimit := 3
    ttlSecondsAfterFinished := 86400
    ownerReferences := [owner] }

/-! EBS driver (`src/drivers/ebs.csi.aws.com/main.go`).

Each exported driver query prints a single value on standard output; the
embedding gives each the printed value. -/

namespace EbsCsiAws

/-- Driver query `GetPreMountCommand` (driver lines 57-60). -/
def GetPreMountCommand : String :=
  "sleep infinity ; DEV=$(chroot /host nsenter --target 1 --mount mount | grep $\x7bPV_NAME\x7d | awk \x27\x7bprint $1\x7d\x27)"

/-- Driver query `GetPreResizeCommand` (driver lines 62-65): delegates to
`GetPreMountCommand`. -/
def GetPreResizeCommand : String :=
  GetPreMountCommand

/-- Driver query `GetCSIDriverNamespace` (driver lines 47-50). -/
def GetCSIDriverNamespace : String := "kube-system"

/-- Driver query `IsFileSystemManaged` (driver lines 67-70). -/
def IsFileSystemManaged : Bool := false

/-- Driver query `WaitForVolumeAttachmentMeta` (driver lines 72-75). -/
def WaitForVolumeAttachmentMeta : String := "devicePath"

end EbsCsiAws

/-! Concrete fixtures used by the closed instance theorems of the final
section. -/

/-- Fixture DiskConfig: empty mount-point pattern, policy with a maximum
capacity of 1000 bytes and a 10 percent upscale trigger. -/
def cfgFix : DiskConfig := ⟨"cfg", "", ⟨false, some 1000, 10⟩⟩

/-- Fixture claim carrying the `discoblocks` label of `cfgFix` but no
finalizer at all. -/
def pvcUnmanaged : PVC := ⟨"p", [], [("discoblocks", "cfg")], none, "Bound", 100⟩

/-- Fixture claim lookup resolving only `pvcUnmanaged`. -/
def getPVCUnmanaged : String → Option PVC :=
  fun n => if n = "p" then some pvcUnmanaged else none

/-- Fixture volume mounts for `pvcUnmanaged`, mounted at the pattern
rendered for `cfgFix`. -/
def vmsUnmanaged : List VolumeMount := [⟨"p", "/media/discoblocks/cfg-0"⟩]

/-- Fixture claim named `other`, managed by `cfgFix` (it carries the
rendered finalizer). -/
def pvcOther : PVC :=
  ⟨"other", [RenderFinalizer "cfg"], [("discoblocks", "cfg")], none, "Bound", 100⟩

/-- Fixture claim lookup resolving only `pvcOther`. -/
def getPVCOther : String → Option PVC :=
  fun n => if n = "other" then some pvcOther else none

/-- Fixture volume mounts attaching `pvcOther` at the mount point the
mutator renders for the claim name `other`. -/
def vmsOther : List VolumeMount := [⟨"other", "/media/discoblocks/other-0"⟩]

/-- Fixture claim under deletion: carries its rendered finalizer and a
set deletion timestamp on both sides of an update. -/
def pvcDeleting : PVC :=
  ⟨"p", [RenderFinalizer "a"], [("discoblocks", "a")], some 1, "Bound", 0⟩

/-- Fixture mutator config whose storage-class lookup reports not-found. -/
def cfgScMissing : MutatorConfig :=
  { name := "cfg", scName := "standard", deleting := false, selectorMatches := true,
    mountPointPattern := "", scLookup := .notFound, pvcName := "pvc-1", stubOk := true,
    createFails := false }

/-! Theorems.  Each claim of the specification is settled by one theorem
below; shared inversion lemmas come first. -/

/-- Closed-form shape of `monitorResizeDecision`: the two skip branches,
the shrink-to-maximum branch and the grow-by-1Gi branch. -/
theorem monitorResizeDecision_eq (actual available maxCapacity pct : ℚ) :
    monitorResizeDecision actual available maxCapacity pct =
      if actual * pct / 100 > actual - available then none
      else if actual = maxCapacity then none
      else if maxCapacity < oneGi + actual then some maxCapacity
      else some (oneGi + actual) := by
  simp only [monitorResizeDecision]
  split_ifs <;> rfl

/-- Inversion for `processMetricSample`: an issued update pins down the
mount-point filter, the resolved volume mount and the managed-claim
check. -/
theorem processMetricSample_eq_some {config : DiskConfig} {vms : List VolumeMount}
    {getPVC : String → Option PVC} {mp : String} {avail : Option ℚ}
    {n : String} {c : ℚ}
    (h : processMetricSample config vms getPVC mp avail = some (n, c)) :
    mp = RenderMountPoint config.mountPointPattern config.name 0 ∧
    ∃ vm pvc, vms.find? (fun vm => vm.mountPath == mp) = some vm ∧
      vm.name = n ∧ getPVC n = some pvc ∧
      containsFinalizer pvc (RenderFinalizer config.name) = true := by
  unfold processMetricSample at h
  split_ifs at h with h0 h1
  refine ⟨not_not.mp h1, ?_⟩
  split at h
  next => simp at h
  next vm hfind =>
    split_ifs at h with hname
    split at h
    next => simp at h
    next pvc hget =>
      split_ifs at h with hfin
      split at h
      next => simp at h
      next a =>
        split at h
        next => simp at h
        next maxC hmax =>
          split at h
          next => simp at h
          next newCap hdec =>
            simp only [Option.some.injEq, Prod.mk.injEq] at h
            exact ⟨vm, pvc, hfind, h.1, by rw [← h.1]; exact hget,
              by simpa using hfin⟩

/-- C1.  Counterexample to the claim as stated: with a current capacity
of 100 bytes, a 10 percent trigger and 90 available bytes, `available`
equals `currentCapacity − threshold`, so the claim demands that no
request be issued; `MonitorVolumes` (whose skip test is the strict
`treshold > actualCapacity − available`) issues a resize to the maximum
(200 < 100 + 1Gi). -/
theorem c1_boundary_counterexample :
    ((90 : ℚ) ≥ 100 - 100 * 10 / 100) ∧
    monitorResizeDecision 100 90 200 10 = some 200 := by
  constructor
  · norm_num
  · norm_num [monitorResizeDecision, oneGi]

/-- C1 (amended).  For every monitor sample: if the available bytes are
at most `currentCapacity − threshold` (`threshold = currentCapacity ×
pct / 100`) and the current capacity differs from the configured maximum,
a resize to `min(currentCapacity + 1Gi, maximumCapacity)` is issued;
whenever the available bytes exceed `currentCapacity − threshold`, no
request is issued. -/
theorem c1_threshold_decision (actual available maxCapacity pct : ℚ) :
    (available ≤ actual - actual * pct / 100 → actual ≠ maxCapacity →
      monitorResizeDecision actual available maxCapacity pct =
        some (min (actual + oneGi) maxCapacity)) ∧
    (available > actual - actual * pct / 100 →
      monitorResizeDecision actual available maxCapacity pct = none) := by
  constructor
  · intro h hne
    rw [monitorResizeDecision_eq, if_neg (by linarith), if_neg hne]
    rcases lt_or_le maxCapacity (oneGi + actual) with hC | hC
    · rw [if_pos hC, min_eq_right (by linarith)]
    · rw [if_neg (not_lt.mpr hC), min_eq_left (by linarith)]
      exact congrArg some (add_comm oneGi actual)
  · intro h
    rw [monitorResizeDecision_eq, if_pos (by linarith)]

/-- C1 witness: the amended statement evaluated at the counterexample
input (resize issued) and at 95 available bytes (headroom, no request). -/
theorem c1_threshold_decision_witness :
    monitorResizeDecision 100 90 200 10 = some (min ((100 : ℚ) + oneGi) 200) ∧
    monitorResizeDecision 100 95 200 10 = none :=
  ⟨(c1_threshold_decision 100 90 200 10).1 (by norm_num) (by norm_num),
   (c1_threshold_decision 100 95 200 10).2 (by norm_num)⟩

/-- C2.  Resize is idempotent at the ceiling: whenever the claim's actual
capacity equals the configured maximum capacity, `MonitorVolumes` issues
no resize request, regardless of the scraped available value. -/
theorem c2_ceiling_no_resize (actual available maxCapacity pct : ℚ)
    (h : actual = maxCapacity) :
    monitorResizeDecision actual available maxCapacity pct = none := by
  subst h
  simp [monitorResizeDecision_eq]

/-- C2 witness: a claim at the 5-byte maximum with 3 available bytes
(which is below the trigger threshold) gets no resize request. -/
theorem c2_ceiling_no_resize_witness :
    monitorResizeDecision 5 3 5 10 = none :=
  c2_ceiling_no_resize 5 3 5 10 rfl

/-- C3.  A claim that does not carry its owning configuration's rendered
finalizer (its owning configuration being the one named by its
`discoblocks` label) is never the target of a capacity update of
`MonitorVolumes`, for any sample, and the event filter rejects its create
events (and its update events as well). -/
theorem c3_unmanaged_untouched (config : DiskConfig) (vms : List VolumeMount)
    (getPVC : String → Option PVC) (pvc : PVC) (n : String)
    (hget : getPVC n = some pvc)
    (hlabel : pvcLabelDiscoblocks pvc = config.name)
    (hfin : containsFinalizer pvc (RenderFinalizer config.name) = false) :
    (∀ mp avail c, processMetricSample config vms getPVC mp avail ≠ some (n, c)) ∧
    pvcEventFilterCreate pvc = false ∧
    (∀ old, pvcEventFilterUpdate old pvc = false) := by
  refine ⟨?_, ?_, ?_⟩
  · intro mp avail c h
    obtain ⟨-, vm, pvc', hfind, hname, hget', hfin'⟩ := processMetricSample_eq_some h
    rw [hget] at hget'
    cases hget'
    rw [hfin] at hfin'
    exact Bool.noConfusion hfin'
  · unfold pvcEventFilterCreate
    rw [hlabel, hfin]
  · intro old
    unfold pvcEventFilterUpdate
    rw [hlabel, if_pos (by simp [hfin])]

/-- C3 witness: the unmanaged fixture claim, mounted at the configured
mount point, receives no update from the sample processor, and its create
and update events are rejected. -/
theorem c3_unmanaged_untouched_witness :
    processMetricSample cfgFix vmsUnmanaged getPVCUnmanaged
      "/media/discoblocks/cfg-0" (some 0) ≠ some ("p", 5) ∧
    pvcEventFilterCreate pvcUnmanaged = false ∧
    pvcEventFilterUpdate pvcUnmanaged pvcUnmanaged = false :=
  ⟨(c3_unmanaged_untouched cfgFix vmsUnmanaged getPVCUnmanaged pvcUnmanaged "p"
      (by decide) (by decide) (by decide)).1 "/media/discoblocks/cfg-0" (some 0) 5,
   (c3_unmanaged_untouched cfgFix vmsUnmanaged getPVCUnmanaged pvcUnmanaged "p"
      (by decide) (by decide) (by decide)).2.1,
   (c3_unmanaged_untouched cfgFix vmsUnmanaged getPVCUnmanaged pvcUnmanaged "p"
      (by decide) (by decide) (by decide)).2.2 pvcUnmanaged⟩

/-- C4.  Counterexample to the claim as stated: from a free gate, a
reconcile acquires the gate and proceeds, and a monitor cycle issued
while the gate is held proceeds as well — `MonitorVolumes` contains no
semaphore acquisition — so it is false that exactly one of the two
proceeds while the other reports busy and skips. -/
theorem c4_both_proceed_counterexample :
    reconcileGate false = (ReconcileGateOutcome.proceeded, true) ∧
    monitorGateStep true = (true, true) := by
  exact ⟨rfl, rfl⟩

/-- C4 (amended).  The event-driven reconcile tries the shared
non-blocking gate: it proceeds (holding the gate) when the gate is free
and requests a requeue without waiting when the gate is held; a monitor
cycle never consults the gate and always proceeds, leaving the gate
state unchanged. -/
theorem c4_gate_behaviour (locked : Bool) :
    reconcileGate locked =
      (if locked then (ReconcileGateOutcome.requeue, true)
       else (ReconcileGateOutcome.proceeded, true)) ∧
    monitorGateStep locked = (true, locked) := by
  cases locked <;> exact ⟨rfl, rfl⟩

/-- C5.  In one admission pass, whenever the config loop stops at one of
the three `errorMode` failure sites (storage class not found,
`NewPVC`/driver-validation failure, mount-point collision with a claim
assigned earlier in the same pass), the admission response is a denial
(`Errored`) when `strict` is set and an unmodified allow (no patch) when
it is not. -/
theorem c5_strict_policy (strict : Bool) (configs : List MutatorConfig)
    (code : Nat) (reason : String)
    (h : mutatorPass configs [] = .softFail code reason) :
    (strict = true → podMutatorHandle strict configs = .errored code) ∧
    (strict = false → podMutatorHandle strict configs = .allowed reason) := by
  unfold podMutatorHandle
  rw [h]
  constructor <;> (intro hs; subst hs; rfl)

/-- C5 witness: the storage-class-not-found fixture is denied with 404
under strict and allowed unmodified otherwise. -/
theorem c5_strict_policy_witness :
    podMutatorHandle true [cfgScMissing] = .errored 404 ∧
    podMutatorHandle false [cfgScMissing] = .allowed "StorageClass not found: standard" :=
  ⟨(c5_strict_policy true [cfgScMissing] 404 "StorageClass not found: standard"
      (by decide)).1 rfl,
   (c5_strict_policy false [cfgScMissing] 404 "StorageClass not found: standard"
      (by decide)).2 rfl⟩

/-- C6.  Counterexample to the claim as stated: an update whose old and
new objects both carry the same non-nil deletion timestamp and the same
phase is admitted by `pvcEventFilter.Update` (the code tests the
timestamps for being set, not for having changed), while the claim —
deletion timestamp changed or phase changed — demands rejection. -/
theorem c6_unchanged_timestamp_counterexample :
    pvcEventFilterUpdate pvcDeleting pvcDeleting = true ∧
    ¬ (pvcDeleting.deletionTimestamp ≠ pvcDeleting.deletionTimestamp ∨
        pvcDeleting.phase ≠ pvcDeleting.phase) := by
  constructor
  · decide
  · simp

/-- C6 (amended).  The event filter admits a create event exactly when
the claim carries the managing finalizer; admits an update event exactly
when the finalizer is present on the new object and (the old object's
deletion timestamp is set, or the new object's deletion timestamp is
set, or the phase changed); and always rejects delete and generic
events. -/
theorem c6_event_filter (oldObj newObj : PVC) :
    (pvcEventFilterCreate newObj = true ↔
      RenderFinalizer (pvcLabelDiscoblocks newObj) ∈ newObj.finalizers) ∧
    (pvcEventFilterUpdate oldObj newObj = true ↔
      (RenderFinalizer (pvcLabelDiscoblocks newObj) ∈ newObj.finalizers ∧
        (oldObj.deletionTimestamp ≠ none ∨ newObj.deletionTimestamp ≠ none ∨
          oldObj.phase ≠ newObj.phase))) ∧
    pvcEventFilterDelete = false ∧ pvcEventFilterGeneric = false := by
  refine ⟨?_, ?_, rfl, rfl⟩
  · unfold pvcEventFilterCreate containsFinalizer
    exact List.elem_iff
  · unfold pvcEventFilterUpdate
    by_cases hc : containsFinalizer newObj (RenderFinalizer (pvcLabelDiscoblocks newObj)) = true
    · rw [if_neg (by simp [hc])]
      have hmem : RenderFinalizer (pvcLabelDiscoblocks newObj) ∈ newObj.finalizers := by
        have := hc
        unfold containsFinalizer at this
        exact List.elem_iff.mp this
      simp [hmem, Option.isSome_iff_ne_none, bne_iff_ne, or_assoc]
    · rw [if_pos (by simpa using hc)]
      constructor
      · intro hfalse
        exact Bool.noConfusion hfalse
      · rintro ⟨hmem, -⟩
        exact absurd (by unfold containsFinalizer; exact List.elem_iff.mpr hmem) hc

/-- C7.  Every rendered job is namespaced to the given namespace and
carries exactly the given owner reference (the triggering claim); the
attach shape has `backoffLimit` 0, the mount and resize shapes have
`backoffLimit` 3, and all three have `ttlSecondsAfterFinished` 86400
(24 hours). -/
theorem c7_job_manifests (pvcName pvName ns nodeName fs mountPoint : String)
    (containerIDs : List String) (preMountCommand preResizeCommand : String)
    (hostPID : Bool) (volumeMeta : String) (ts1 ts2 ts3 : Nat)
    (owner : OwnerReference) :
    ((RenderAttachJob pvcName ns nodeName ts1 owner).jobNamespace = ns ∧
      (RenderAttachJob pvcName ns nodeName ts1 owner).backoffLimit = 0 ∧
      (RenderAttachJob pvcName ns nodeName ts1 owner).ttlSecondsAfterFinished = 86400 ∧
      (RenderAttachJob pvcName ns nodeName ts1 owner).ownerReferences = [owner]) ∧
    ((RenderMountJob pvcName pvName ns nodeName fs mountPoint containerIDs
        preMountCommand hostPID volumeMeta ts2 owner).jobNamespace = ns ∧
      (RenderMountJob pvcName pvName ns nodeName fs mountPoint containerIDs
        preMountCommand hostPID volumeMeta ts2 owner).backoffLimit = 3 ∧
      (RenderMountJob pvcName pvName ns nodeName fs mountPoint containerIDs
        preMountCommand hostPID volumeMeta ts2 owner).ttlSecondsAfterFinished = 86400 ∧
      (RenderMountJob pvcName pvName ns nodeName fs mountPoint containerIDs
        preMountCommand hostPID volumeMeta ts2 owner).ownerReferences = [owner]) ∧
    ((RenderResizeJob pvcName pvName ns nodeName fs preResizeCommand
        volumeMeta ts3 owner).jobNamespace = ns ∧
      (RenderResizeJob pvcName pvName ns nodeName fs preResizeCommand
        volumeMeta ts3 owner).backoffLimit = 3 ∧
      (RenderResizeJob pvcName pvName ns nodeName fs preResizeCommand
        volumeMeta ts3 owner).ttlSecondsAfterFinished = 86400 ∧
      (RenderResizeJob pvcName pvName ns nodeName fs preResizeCommand
        volumeMeta ts3 owner).ownerReferences = [owner]) :=
  ⟨⟨rfl, rfl, rfl, rfl⟩, ⟨rfl, rfl, rfl, rfl⟩, ⟨rfl, rfl, rfl, rfl⟩⟩

/-- C8.  Whenever a managed claim's actual capacity strictly exceeds the
configured maximum and the trigger condition holds (the threshold is at
most `actual − available`), `MonitorVolumes` issues an update setting the
storage request to exactly the maximum — a decrease of the claim's
capacity — because the ceiling branch fires only on exact equality. -/
theorem c8_above_max_shrinks (actual available maxCapacity pct : ℚ)
    (hover : maxCapacity < actual)
    (htrigger : actual * pct / 100 ≤ actual - available) :
    monitorResizeDecision actual available maxCapacity pct = some maxCapacity ∧
    maxCapacity < actual := by
  refine ⟨?_, hover⟩
  have hpos : (0 : ℚ) < oneGi := by norm_num [oneGi]
  rw [monitorResizeDecision_eq, if_neg (not_lt.mpr htrigger), if_neg hover.ne',
    if_pos (by linarith)]

/-- C8 witness: a claim at 12 bytes against a 10-byte maximum with no
available space is shrunk to exactly the 10-byte maximum. -/
theorem c8_above_max_shrinks_witness :
    monitorResizeDecision 12 0 10 0 = some 10 ∧ (10 : ℚ) < 12 :=
  c8_above_max_shrinks 12 0 10 0 (by norm_num) (by norm_num)

/-- C9.  The monitor filters samples against the mount point rendered for
the configuration name while the mutator mounts each claim at the mount
point rendered for the claim name: whenever these two renderings differ,
a scraped sample carrying the mutator's mount point is never processed,
and the monitor never issues a resize for the claim the mutator attached
(whose volume mount sits at the mutator's rendering). -/
theorem c9_monitor_mutator_mismatch (config : DiskConfig) (vms : List VolumeMount)
    (getPVC : String → Option PVC) (attached : String)
    (hdiff : RenderMountPoint config.mountPointPattern attached 0 ≠
      RenderMountPoint config.mountPointPattern config.name 0)
    (hvm : ∀ vm ∈ vms, vm.name = attached →
      vm.mountPath = RenderMountPoint config.mountPointPattern attached 0) :
    (∀ avail, processMetricSample config vms getPVC
      (RenderMountPoint config.mountPointPattern attached 0) avail = none) ∧
    (∀ mp avail c, processMetricSample config vms getPVC mp avail ≠
      some (attached, c)) := by
  constructor
  · intro avail
    unfold processMetricSample
    by_cases h0 : RenderMountPoint config.mountPointPattern attached 0 = ""
    · rw [if_pos h0]
    · rw [if_neg h0, if_pos hdiff]
  · intro mp avail c h
    obtain ⟨hmp, vm, pvc, hfind, hname, -, -⟩ := processMetricSample_eq_some h
    have hmem := List.mem_of_find?_eq_some hfind
    have hpath : vm.mountPath = mp := by
      have := List.find?_some hfind
      simpa using this
    apply hdiff
    rw [← hvm vm hmem hname, hpath, hmp]

/-- C9 witness: with the empty pattern, the rendering for claim `other`
differs from the rendering for config `cfg`; a sample at the claim's
mount point is dropped and the attached claim is never resized. -/
theorem c9_monitor_mutator_mismatch_witness :
    processMetricSample cfgFix vmsOther getPVCOther
      (RenderMountPoint "" "other" 0) (some 0) = none ∧
    processMetricSample cfgFix vmsOther getPVCOther
      "/media/discoblocks/other-0" (some 0) ≠ some ("other", 5) :=
  ⟨(c9_monitor_mutator_mismatch cfgFix vmsOther getPVCOther "other"
      (by decide) (by decide)).1 (some 0),
   (c9_monitor_mutator_mismatch cfgFix vmsOther getPVCOther "other"
      (by decide) (by decide)).2 "/media/discoblocks/other-0" (some 0) 5⟩

set_option maxRecDepth 16000

/-- C10.  For the EBS backend, `GetPreResizeCommand` emits exactly the
text of `GetPreMountCommand`; that text begins with the literal
`sleep infinity ; ` ahead of the device-discovery pipeline, and every
mount or resize job rendered with this backend's pre-command embeds a
script that starts with `sleep infinity ; `. -/
theorem c10_ebs_sleep_infinity (pvcName pvName ns nodeName fs mountPoint : String)
    (containerIDs : List String) (hostPID : Bool) (volumeMeta : String)
    (ts1 ts2 : Nat) (owner : OwnerReference) :
    EbsCsiAws.GetPreResizeCommand = EbsCsiAws.GetPreMountCommand ∧
    "sleep infinity ; ".toList <+: EbsCsiAws.GetPreMountCommand.toList ∧
    "sleep infinity ; ".toList <+:
      ((RenderMountJob pvcName pvName ns nodeName fs mountPoint containerIDs
        EbsCsiAws.GetPreMountCommand hostPID volumeMeta ts1 owner).command).toList ∧
    "sleep infinity ; ".toList <+:
      ((RenderResizeJob pvcName pvName ns nodeName fs
        EbsCsiAws.GetPreResizeCommand volumeMeta ts2 owner).command).toList := by
  refine ⟨rfl, by decide, ?_, ?_⟩
  · show "sleep infinity ; ".toList <+:
      (renderedMountCommand EbsCsiAws.GetPreMountCommand hostPID).toList
    cases hostPID <;> decide
  · show "sleep infinity ; ".toList <+:
      (renderedResizeCommand EbsCsiAws.GetPreResizeCommand).toList
    decide

end Discoblocks
